import Mathlib

/-!
Shallow embedding of the booking payment ledger of the `seekeradv1.2`
backend (`backend/routes/bookings.py`, `backend/routes/admin.py`,
`backend/models/booking.py`).

Monetary values (Python floats) are modelled as rationals; timestamps as
naturals; database documents as Lean structures.  Each route handler's
booking/payment mutation is embedded as a pure function on the booking
document it targets (the database lookup by `booking_id` is taken as
already done; a handler that aborts before mutating is an `Except.error`).
The external payment gateways (HTTP calls) are modelled by an explicit
outcome argument, and the HMAC-SHA256 primitive of the standard library by
an explicit `expected_signature` argument, as both are collaborators
outside this repository.
-/

namespace Seeker

/-- Python enum `PaymentStatus` of `models/booking.py` (values pending /
partial / completed / failed / refunded; `partial` is a Lean keyword, so
the constructor is named `partPaid`). -/
inductive PaymentStatus where
  | pending
  | partPaid
  | completed
  | failed
  | refunded
deriving DecidableEq, Repr

/-- Python enum `PaymentMethod` of `models/booking.py`. -/
inductive PaymentMethod where
  | billplz
  | stripe
  | bayarcash
  | bank_transfer
deriving DecidableEq, Repr

/-- Python enum `BookingStatus` of `models/booking.py`. -/
inductive BookingStatus where
  | pending
  | confirmed
  | cancelled
  | completed
deriving DecidableEq, Repr

/-- Python enum `PaymentType` of `models/booking.py`. -/
inductive PaymentType where
  | deposit
  | full
deriving DecidableEq, Repr

/-- Python enum `BookingTripType` (values `open` / `private`, both Lean
keywords, hence the constructor names). -/
inductive BookingTripType where
  | openTrip
  | privateTrip
deriving DecidableEq, Repr

/-- Model `ParticipantDetail` of `models/booking.py` (only textual fields). -/
structure ParticipantDetail where
  client_id : String
  name : String
  email : String
  phone : String
deriving DecidableEq, Repr

/-- One element of a booking document's `payments` array, as written by
`create_payment` and mutated by the reconciliation handlers.  `paid_at` and
`created_at` timestamps are naturals; `transaction_id` is the extra field
the Bayarcash webhook sets on the document. -/
structure PaymentRecord where
  payment_id : String
  bill_id : Option String
  amount : ℚ
  payment_method : PaymentMethod
  status : PaymentStatus
  paid_at : Option Nat
  transaction_id : Option String
  created_at : Nat
deriving DecidableEq, Repr

/-- The booking document, with the fields the ledger reads and writes
(`booking_doc` built in `create_booking` in `routes/bookings.py`). -/
structure Booking where
  booking_id : String
  user_id : String
  trip_id : String
  trip_title : String
  guests : ℕ
  total_amount : ℚ
  deposit_amount : ℚ
  paid_amount : ℚ
  remaining_amount : ℚ
  currency : String
  payment_type : PaymentType
  payment_status : PaymentStatus
  booking_status : BookingStatus
  participant_details : List ParticipantDetail
  payments : List PaymentRecord
  created_at : Nat
  updated_at : Nat
deriving DecidableEq, Repr

/-- The trip fields `create_booking` reads (`db.trips` document). -/
structure Trip where
  trip_id : String
  title : String
  price : ℚ
  deposit_price : ℚ
  max_guests : ℕ
  currency : String
deriving DecidableEq, Repr

/-- Request model `BookingCreate` of `models/booking.py`. -/
structure BookingCreate where
  trip_id : String
  trip_type : BookingTripType
  start_date : String
  guests : ℕ
  payment_type : PaymentType
  participant_details : List ParticipantDetail
deriving DecidableEq, Repr

/-- Request model `PaymentCreate` of `models/booking.py`. -/
structure PaymentCreate where
  booking_id : String
  amount : ℚ
  payment_method : PaymentMethod
deriving DecidableEq, Repr

/-- Errors raised by the handlers (`HTTPException` status classes). -/
inductive Err where
  | notFound (msg : String)
  | badRequest (msg : String)
  | serverError (msg : String)
deriving DecidableEq, Repr

/-- Python `round(x, 2)`: round to two decimal places, ties to even
(Python's `round` uses banker's rounding). -/
def round2 (x : ℚ) : ℚ :=
  let y := x * 100
  let n : ℤ := ⌊y⌋
  let r : ℚ := y - n
  let k : ℤ :=
    if 1/2 < r then n + 1
    else if r < 1/2 then n
    else if n % 2 = 0 then n else n + 1
  (k : ℚ) / 100

/-- Flat Billplz fee, `BILLPLZ_FEE = 1.50` in `routes/bookings.py`. -/
def BILLPLZ_FEE : ℚ := 3/2

/-- Stripe percentage fee, `STRIPE_FEE_PERCENT = 4.0`. -/
def STRIPE_FEE_PERCENT : ℚ := 4

/-- The processing-fee computation of `create_payment`
(`routes/bookings.py` lines 210-217): flat 1.50 for Billplz, 4% rounded to
2 dp for Stripe, nothing for Bayarcash, and the initial `0.0` is kept for
bank transfer (no branch assigns it). -/
def processing_fee (amount : ℚ) (m : PaymentMethod) : ℚ :=
  match m with
  | .billplz => BILLPLZ_FEE
  | .stripe => round2 (amount * (STRIPE_FEE_PERCENT / 100))
  | .bayarcash => 0
  | .bank_transfer => 0

/-- `charge_amount = round(payment_data.amount + processing_fee, 2)`
(`routes/bookings.py` line 219). -/
def charge_amount (amount : ℚ) (m : PaymentMethod) : ℚ :=
  round2 (amount + processing_fee amount m)

/-- Handler `create_booking` of `routes/bookings.py` (lines 68-133): trip
already looked up; `booking_id` comes from the sequence counter and `now`
is the request timestamp.  The source also computes an `initial_amount`
(deposit vs full) that is never used in the stored document; it is kept
here under the same dead-code role. -/
def create_booking (trip : Trip) (d : BookingCreate) (user_id booking_id : String)
    (now : Nat) : Except Err Booking :=
  if trip.max_guests < d.guests then
    .error (.badRequest "Maximum guests allowed")
  else if d.participant_details.length ≠ d.guests then
    .error (.badRequest "Participant details must match number of guests")
  else
    let total_amount : ℚ := trip.price * (d.guests : ℚ)
    let _initial_amount : ℚ :=
      if d.payment_type = .deposit then trip.deposit_price * (d.guests : ℚ)
      else total_amount
    .ok
      { booking_id := booking_id
        user_id := user_id
        trip_id := d.trip_id
        trip_title := trip.title
        guests := d.guests
        total_amount := total_amount
        deposit_amount := trip.deposit_price * (d.guests : ℚ)
        paid_amount := 0
        remaining_amount := total_amount
        currency := trip.currency
        payment_type := d.payment_type
        payment_status := .pending
        booking_status := .pending
        participant_details := d.participant_details
        payments := []
        created_at := now
        updated_at := now }

/-- Outcome of the outbound gateway call made during payment initiation
(Billplz `POST /v3/bills`, Stripe checkout-session creation, Bayarcash
`POST /payment-intents`): either a bill/session identifier plus a payer
redirect URL, or a transport failure (timeout / non-2xx, surfaced in the
source as `requests.exceptions.RequestException` or an SDK exception). -/
inductive GatewayResult where
  | ok (bill_id : String) (url : String)
  | err
deriving DecidableEq, Repr

/-- Successful response body of `create_payment` (fee breakdown part). -/
structure PayResponse where
  payment_id : String
  amount : ℚ
  processing_fee : ℚ
  charge_amount : ℚ
deriving DecidableEq, Repr

/-- Handler `create_payment` of `routes/bookings.py` (lines 188-478).
Validation happens before any mutation: fully-paid booking, amount above
the remaining balance (`total_amount - paid_amount`), amount below RM2.
For the three gateway methods the pending `PaymentRecord` is pushed onto
`payments` only after the gateway call succeeded; a transport failure
raises without touching the booking.  Bank transfer makes no gateway call
and always pushes the record. -/
def create_payment (b : Booking) (pd : PaymentCreate) (gw : GatewayResult)
    (payment_id : String) (now : Nat) : Except Err (Booking × PayResponse) :=
  if b.payment_status = .completed then
    .error (.badRequest "Booking is already fully paid")
  else if b.total_amount - b.paid_amount < pd.amount then
    .error (.badRequest "Amount exceeds remaining balance")
  else if pd.amount < 2 then
    .error (.badRequest "Minimum payment amount is RM2")
  else
    let fee := processing_fee pd.amount pd.payment_method
    let charge := charge_amount pd.amount pd.payment_method
    let resp : PayResponse := ⟨payment_id, pd.amount, fee, charge⟩
    match pd.payment_method with
    | .bank_transfer =>
        let record : PaymentRecord :=
          ⟨payment_id, none, pd.amount, .bank_transfer, .pending, none, none, now⟩
        .ok ({ b with payments := b.payments ++ [record], updated_at := now }, resp)
    | m =>
        match gw with
        | .err => .error (.serverError "Failed to create payment bill")
        | .ok bill_id _url =>
            let record : PaymentRecord :=
              ⟨payment_id, some bill_id, pd.amount, m, .pending, none, none, now⟩
            .ok ({ b with payments := b.payments ++ [record], updated_at := now }, resp)

/-- Handler `cancel_booking` of `routes/bookings.py` (lines 620-643). -/
def cancel_booking (b : Booking) (now : Nat) : Except Err Booking :=
  if b.booking_status = .cancelled ∨ b.booking_status = .completed then
    .error (.badRequest "Cannot cancel this booking")
  else
    .ok { b with booking_status := .cancelled, updated_at := now }

/-- Sum of `amount` over the records whose status is completed:
`sum(p["amount"] for p in booking["payments"] if p["status"] == "completed")`. -/
def sum_completed : List PaymentRecord → ℚ
  | [] => 0
  | p :: ps => (if p.status = .completed then p.amount else 0) + sum_completed ps

/-- The aggregate-recomputation block shared verbatim by the Billplz
webhook (`routes/bookings.py` 689-708), the Stripe poll (529-548), the
Billplz manual check (603-614) and the admin bank-transfer confirm
(`routes/admin.py` 242-263): re-sum completed payments, clamp the
remaining amount at 0, and derive both statuses.  Note there is no
`pending` branch for `payment_status` and no terminal-state guard for
`booking_status`. -/
def recompute_totals (b : Booking) : Booking :=
  let total_paid := sum_completed b.payments
  let remaining := b.total_amount - total_paid
  { b with
      paid_amount := total_paid
      remaining_amount := max 0 remaining
      payment_status := if remaining ≤ 0 then .completed else .partPaid
      booking_status := if 0 < total_paid then .confirmed else .pending }

/-- MongoDB positional update
`update_one({payments.payment_id: pid}, {$set: {payments.$.status: completed,
payments.$.paid_at: now}})`: sets the first array element whose
`payment_id` matches.  Applied only when some element matches (otherwise
the filter matches no document). -/
def markFirstCompleted (pid : String) (now : Nat) :
    List PaymentRecord → List PaymentRecord
  | [] => []
  | p :: ps =>
      if p.payment_id = pid then
        { p with status := .completed, paid_at := some now } :: ps
      else
        p :: markFirstCompleted pid now ps

/-- Whether some payment record on the booking has the given id (the mongo
filter `{"booking_id": .., "payments.payment_id": pid}` matching). -/
def hasPayment (pid : String) (ps : List PaymentRecord) : Bool :=
  ps.any fun p => p.payment_id = pid

/-- First step of the payment_id-keyed reconciliation: the positional
`$set` that also bumps `updated_at`, applied only when the filter matched. -/
def apply_mark (b : Booking) (pid : String) (now : Nat) : Booking :=
  if hasPayment pid b.payments then
    { b with payments := markFirstCompleted pid now b.payments, updated_at := now }
  else b

/-- Reconciliation keyed by an explicit `payment_id`: mark the record
completed, then unconditionally re-fetch the booking and recompute the
aggregates.  This exact sequence appears in the Billplz webhook, in the
Stripe status poll, and in the admin bank-transfer confirm. -/
def reconcile_by_payment_id (b : Booking) (pid : String) (now : Nat) : Booking :=
  recompute_totals (apply_mark b pid now)

/-- Ledger effect of handler `billplz_webhook` (`routes/bookings.py`
lines 647-711) on the booking named by `reference_1`, given the parsed
form fields `paid` and `reference_2` (= `payment_id`).  When `paid` is
false nothing is written. -/
def billplz_webhook_update (b : Booking) (paid : Bool) (payment_id : String)
    (now : Nat) : Booking :=
  if paid then reconcile_by_payment_id b payment_id now else b

/-- Ledger effect of handler `confirm_bank_transfer` (`routes/admin.py`
lines 221-264): same mark-then-recompute sequence, run for any
`payment_id` the admin supplies (no pending-status check, and the
recompute runs even when no record matched). -/
def confirm_bank_transfer_update (b : Booking) (payment_id : String)
    (now : Nat) : Booking :=
  reconcile_by_payment_id b payment_id now

/-- Ledger effect of the Stripe status poll
(`check_stripe_payment_status`, `routes/bookings.py` lines 481-559) once
the gateway reports `paid` and the satellite transaction row yields the
`payment_id`: identical mark-then-recompute sequence. -/
def stripe_poll_update (b : Booking) (payment_id : String) (now : Nat) : Booking :=
  reconcile_by_payment_id b payment_id now

/-- Python `str.lower()` restricted to ASCII, which is all the Bayarcash
status markers use (character-wise lowercasing of the string). -/
def strLower (s : String) : String := String.mk (s.data.map Char.toLower)

/-- Success markers of the Bayarcash webhook
(`str(status).lower() in ["3", "success", "successful", "completed", "paid"]`). -/
def bayarcash_success_statuses : List String :=
  ["3", "success", "successful", "completed", "paid"]

/-- The Bayarcash webhook's record update: find the first payment that is
`bayarcash` and still `pending`, mark it completed with the gateway
transaction id, and report its `amount`; `none` when no such record. -/
def bayarcash_mark (tx : String) (now : Nat) :
    List PaymentRecord → Option (List PaymentRecord × ℚ)
  | [] => none
  | p :: ps =>
      if p.payment_method = .bayarcash ∧ p.status = .pending then
        some ({ p with status := .completed, paid_at := some now,
                       transaction_id := some tx } :: ps, p.amount)
      else
        match bayarcash_mark tx now ps with
        | some (ps', a) => some (p :: ps', a)
        | none => none

/-- Ledger effect of handler `bayarcash_webhook` (`routes/bookings.py`
lines 715-764) on the booking recovered from `order_number`.  On success
it completes the first pending Bayarcash record and updates `paid_amount`
incrementally (`new_paid = paid_amount + amount`); `payment_status`
becomes completed when `new_paid >= total` else partial;
`booking_status` is set to confirmed only when `new_paid >= total`.
`remaining_amount` is never written by this handler. -/
def bayarcash_webhook_update (b : Booking) (status : String)
    (transaction_id : String) (now : Nat) : Booking :=
  if bayarcash_success_statuses.contains (strLower status) then
    match bayarcash_mark transaction_id now b.payments with
    | some (ps', payment_amount) =>
        let new_paid := b.paid_amount + payment_amount
        { b with
            payments := ps'
            paid_amount := new_paid
            payment_status := if b.total_amount ≤ new_paid then .completed else .partPaid
            booking_status := if b.total_amount ≤ new_paid then .confirmed
                              else b.booking_status
            updated_at := now }
    | none => b
  else b

/-- Signature gate of `billplz_webhook` (`routes/bookings.py` lines
651-664).  `x_signature_key` is the configured secret ("" when unset, and
Python's `if billplz["x_signature_key"]:` truthiness test skips
verification then); `signature_header` is the `X-Signature` request
header (`none` when absent), and the inner `if signature_header:` is
again a truthiness test, so a present-but-empty header also skips
verification; `expected_signature` stands for the HMAC-SHA256 hex digest
of the raw body under the secret, computed by the (external)
`hmac`/`hashlib` primitive.  Returns `true` when the handler raises 403. -/
def billplz_signature_rejects (x_signature_key : String)
    (signature_header : Option String) (expected_signature : String) : Bool :=
  if x_signature_key ≠ "" then
    match signature_header with
    | some h => if h ≠ "" then !(expected_signature == h) else false
    | none => false
  else false

/-- The spec's ledger invariant: `paid_amount` equals the sum of completed
payments and `remaining_amount` equals `max(0, total_amount - paid_amount)`. -/
def ledger_invariant (b : Booking) : Prop :=
  b.paid_amount = sum_completed b.payments ∧
  b.remaining_amount = max 0 (b.total_amount - b.paid_amount)

instance (b : Booking) : Decidable (ledger_invariant b) := by
  unfold ledger_invariant; infer_instance

/-- Forget the `paid_at` timestamps of a payments array (used to state
which parts of the ledger a duplicate signal can still change). -/
def stripTimes (ps : List PaymentRecord) : List PaymentRecord :=
  ps.map fun p => { p with paid_at := none }

/-- The timestamp-free view of a booking's ledger state: the derived
amounts, the two derived statuses, and each payment's identity, amount and
status. -/
def ledger_view (b : Booking) :
    ℚ × ℚ × PaymentStatus × BookingStatus × List (String × ℚ × PaymentStatus) :=
  (b.paid_amount, b.remaining_amount, b.payment_status, b.booking_status,
   b.payments.map fun p => (p.payment_id, p.amount, p.status))

/-- Concrete payment record used by the concrete scenarios below. -/
def sampleRecord (pid : String) (amt : ℚ) (m : PaymentMethod)
    (st : PaymentStatus) : PaymentRecord :=
  ⟨pid, some "bill_1", amt, m, st, none, none, 0⟩

/-- Concrete booking used by the concrete scenarios below: RM500 total,
nothing paid yet, with the given payments array and booking status. -/
def sampleBooking (ps : List PaymentRecord) (bs : BookingStatus) : Booking :=
  { booking_id := "BK-000001"
    user_id := "u_1"
    trip_id := "t_1"
    trip_title := "Trip"
    guests := 2
    total_amount := 500
    deposit_amount := 100
    paid_amount := 0
    remaining_amount := 500
    currency := "RM"
    payment_type := .deposit
    payment_status := .pending
    booking_status := bs
    participant_details := []
    payments := ps
    created_at := 0
    updated_at := 0 }

/-- Concrete trip used by the concrete scenarios below (the spec's
end-to-end scenario: priced 899 per guest, deposit 50 per guest). -/
def sampleTrip : Trip :=
  ⟨"t_1", "Trip", 899, 50, 12, "RM"⟩

/-- Concrete participant entry for the booking-creation scenario. -/
def sampleParticipant : ParticipantDetail :=
  ⟨"SA-000001", "Alice Tan", "alice@example.com", "0123456789"⟩

/-- Concrete booking-creation request: 2 guests, deposit payment type. -/
def sampleCreate : BookingCreate :=
  ⟨"t_1", .openTrip, "2026-01-01", 2, .deposit, [sampleParticipant, sampleParticipant]⟩

theorem recompute_payments (b : Booking) :
    (recompute_totals b).payments = b.payments := rfl

theorem recompute_total_amount (b : Booking) :
    (recompute_totals b).total_amount = b.total_amount := rfl

theorem hasPayment_markFirstCompleted (pid pid' : String) (t : Nat)
    (ps : List PaymentRecord) :
    hasPayment pid (markFirstCompleted pid' t ps) = hasPayment pid ps := by
  induction ps with
  | nil => rfl
  | cons p ps ih =>
      by_cases h : p.payment_id = pid'
      · simp [markFirstCompleted, h, hasPayment]
      · simp only [markFirstCompleted, if_neg h, hasPayment, List.any_cons] at ih ⊢
        rw [ih]

theorem stripTimes_markFirst_markFirst (pid : String) (t1 t2 : Nat)
    (ps : List PaymentRecord) :
    stripTimes (markFirstCompleted pid t2 (markFirstCompleted pid t1 ps))
      = stripTimes (markFirstCompleted pid t1 ps) := by
  induction ps with
  | nil => rfl
  | cons p ps ih =>
      by_cases h : p.payment_id = pid
      · simp [markFirstCompleted, h, stripTimes]
      · simp only [markFirstCompleted, if_neg h, stripTimes, List.map_cons] at ih ⊢
        rw [ih]

theorem sum_completed_stripTimes (ps : List PaymentRecord) :
    sum_completed (stripTimes ps) = sum_completed ps := by
  induction ps with
  | nil => rfl
  | cons p ps ih =>
      simp only [stripTimes, List.map_cons, sum_completed] at ih ⊢
      simp [ih]

theorem map_view_stripTimes (ps : List PaymentRecord) :
    (stripTimes ps).map (fun p => (p.payment_id, p.amount, p.status))
      = ps.map fun p => (p.payment_id, p.amount, p.status) := by
  induction ps with
  | nil => rfl
  | cons p ps ih => simp [stripTimes, ih]

theorem ledger_view_recompute_congr (x y : Booking)
    (ht : x.total_amount = y.total_amount)
    (hp : stripTimes x.payments = stripTimes y.payments) :
    ledger_view (recompute_totals x) = ledger_view (recompute_totals y) := by
  have hsum : sum_completed x.payments = sum_completed y.payments := by
    rw [← sum_completed_stripTimes x.payments, hp, sum_completed_stripTimes]
  have hview : (x.payments.map fun p => (p.payment_id, p.amount, p.status))
      = y.payments.map fun p => (p.payment_id, p.amount, p.status) := by
    rw [← map_view_stripTimes x.payments, hp, map_view_stripTimes]
  simp [ledger_view, recompute_totals, ht, hsum, hview]

theorem reconcile_ledger_view_idem (b : Booking) (pid : String) (t1 t2 : Nat) :
    ledger_view (reconcile_by_payment_id (reconcile_by_payment_id b pid t1) pid t2)
      = ledger_view (reconcile_by_payment_id b pid t1) := by
  by_cases h : hasPayment pid b.payments
  · have h1 : apply_mark b pid t1
        = { b with payments := markFirstCompleted pid t1 b.payments, updated_at := t1 } := by
      simp [apply_mark, h]
    have h2 : hasPayment pid (reconcile_by_payment_id b pid t1).payments = true := by
      simp [reconcile_by_payment_id, recompute_payments, h1,
        hasPayment_markFirstCompleted, h]
    have h3 : apply_mark (reconcile_by_payment_id b pid t1) pid t2
        = { reconcile_by_payment_id b pid t1 with
              payments := markFirstCompleted pid t2
                (markFirstCompleted pid t1 b.payments),
              updated_at := t2 } := by
      simp [apply_mark, h2]
      simp [reconcile_by_payment_id, recompute_payments, h1]
    show ledger_view (recompute_totals (apply_mark (reconcile_by_payment_id b pid t1) pid t2))
        = ledger_view (reconcile_by_payment_id b pid t1)
    rw [h3]
    have := ledger_view_recompute_congr
      { reconcile_by_payment_id b pid t1 with
          payments := markFirstCompleted pid t2 (markFirstCompleted pid t1 b.payments),
          updated_at := t2 }
      (apply_mark b pid t1)
      (by simp [h1, reconcile_by_payment_id, recompute_total_amount])
      (by simp [h1, stripTimes_markFirst_markFirst])
    exact this
  · have h1 : apply_mark b pid t1 = b := by simp [apply_mark, h]
    have h2 : hasPayment pid (reconcile_by_payment_id b pid t1).payments = false := by
      simp [reconcile_by_payment_id, recompute_payments, h1]
      simpa using h
    have h3 : apply_mark (reconcile_by_payment_id b pid t1) pid t2
        = reconcile_by_payment_id b pid t1 := by
      simp [apply_mark, h2]
    show ledger_view (recompute_totals (apply_mark (reconcile_by_payment_id b pid t1) pid t2))
        = ledger_view (reconcile_by_payment_id b pid t1)
    rw [h3]
    have := ledger_view_recompute_congr (reconcile_by_payment_id b pid t1)
      (apply_mark b pid t1)
      (by simp [h1, reconcile_by_payment_id, recompute_total_amount])
      (by simp [h1, reconcile_by_payment_id, recompute_payments])
    exact this

theorem reconcile_payment_status_iff (b : Booking) (pid : String) (now : Nat) :
    ((reconcile_by_payment_id b pid now).payment_status = .completed
       ↔ (reconcile_by_payment_id b pid now).remaining_amount ≤ 0) ∧
    ((reconcile_by_payment_id b pid now).payment_status = .partPaid
       ↔ 0 < (reconcile_by_payment_id b pid now).remaining_amount) := by
  unfold reconcile_by_payment_id recompute_totals
  set x := apply_mark b pid now with hx
  by_cases h : x.total_amount - sum_completed x.payments ≤ 0
  · simp [h, max_eq_left h]
  · have h' : 0 < x.total_amount - sum_completed x.payments := lt_of_not_le h
    simp [h, max_eq_right (le_of_lt h'), h']

theorem reconcile_booking_status_iff (b : Booking) (pid : String) (now : Nat) :
    ((reconcile_by_payment_id b pid now).booking_status = .confirmed
       ↔ 0 < (reconcile_by_payment_id b pid now).paid_amount) ∧
    ((reconcile_by_payment_id b pid now).booking_status = .pending
       ↔ ¬ 0 < (reconcile_by_payment_id b pid now).paid_amount) := by
  unfold reconcile_by_payment_id recompute_totals
  set x := apply_mark b pid now with hx
  by_cases h : 0 < sum_completed x.payments
  · simp [h]
  · simp [h]

/-- C1: the claimed invariant — paid_amount equals the sum of completed
payments and remaining_amount equals max(0, total - paid) after every
ledger mutation — is broken by the Bayarcash webhook: on the sample
booking (total 500, one pending Bayarcash payment of 200) a successful
callback sets paid_amount to 200 but leaves remaining_amount at its stale
value 500 instead of 300, because the handler never writes
remaining_amount. -/
theorem C1_bayarcash_webhook_breaks_ledger_invariant :
    ledger_invariant (sampleBooking [sampleRecord "pay_c" 200 .bayarcash .pending] .pending)
    ∧ (bayarcash_webhook_update
        (sampleBooking [sampleRecord "pay_c" 200 .bayarcash .pending] .pending)
        "success" "tx_9" 5).paid_amount = 200
    ∧ (bayarcash_webhook_update
        (sampleBooking [sampleRecord "pay_c" 200 .bayarcash .pending] .pending)
        "success" "tx_9" 5).remaining_amount = 500
    ∧ ¬ ledger_invariant (bayarcash_webhook_update
        (sampleBooking [sampleRecord "pay_c" 200 .bayarcash .pending] .pending)
        "success" "tx_9" 5) := by
  have hs : strLower "success" ∈ bayarcash_success_statuses := by decide
  have hpaid : (bayarcash_webhook_update
      (sampleBooking [sampleRecord "pay_c" 200 .bayarcash .pending] .pending)
      "success" "tx_9" 5).paid_amount = 200 := by
    norm_num [bayarcash_webhook_update, hs, bayarcash_mark, sampleBooking, sampleRecord]
  have hrem : (bayarcash_webhook_update
      (sampleBooking [sampleRecord "pay_c" 200 .bayarcash .pending] .pending)
      "success" "tx_9" 5).remaining_amount = 500 := by
    norm_num [bayarcash_webhook_update, hs, bayarcash_mark, sampleBooking, sampleRecord]
  have htot : (bayarcash_webhook_update
      (sampleBooking [sampleRecord "pay_c" 200 .bayarcash .pending] .pending)
      "success" "tx_9" 5).total_amount = 500 := by
    norm_num [bayarcash_webhook_update, hs, bayarcash_mark, sampleBooking, sampleRecord]
  refine ⟨⟨?_, ?_⟩, hpaid, hrem, ?_⟩
  · simp [sampleBooking, sampleRecord, sum_completed]
  · show (500 : ℚ) = max 0 ((500 : ℚ) - 0)
    rw [max_eq_right (by norm_num)]
    norm_num
  · intro hinv
    have h2 := hinv.2
    rw [hpaid, hrem, htot] at h2
    rw [max_eq_right (by norm_num : (0 : ℚ) ≤ 500 - 200)] at h2
    norm_num at h2

/-- C2 counterexample: on a booking with a single pending Billplz payment,
after the first paid webhook the record is no longer pending, yet
re-delivering the same payload is not a no-op — the record's paid_at is
overwritten with the new timestamp, so the booking state after the second
application differs from the state after the first. -/
theorem C2_counterexample_redelivery_not_noop :
    ((billplz_webhook_update
        (sampleBooking [sampleRecord "pay_a" 100 .billplz .pending] .pending)
        true "pay_a" 1).payments.map PaymentRecord.status = [PaymentStatus.completed])
    ∧ ((billplz_webhook_update
        (sampleBooking [sampleRecord "pay_a" 100 .billplz .pending] .pending)
        true "pay_a" 1).payments.map PaymentRecord.paid_at = [some 1])
    ∧ ((billplz_webhook_update (billplz_webhook_update
        (sampleBooking [sampleRecord "pay_a" 100 .billplz .pending] .pending)
        true "pay_a" 1) true "pay_a" 2).payments.map PaymentRecord.paid_at = [some 2])
    ∧ billplz_webhook_update (billplz_webhook_update
        (sampleBooking [sampleRecord "pay_a" 100 .billplz .pending] .pending)
        true "pay_a" 1) true "pay_a" 2
      ≠ billplz_webhook_update
        (sampleBooking [sampleRecord "pay_a" 100 .billplz .pending] .pending)
        true "pay_a" 1 := by
  have h1 : (billplz_webhook_update
      (sampleBooking [sampleRecord "pay_a" 100 .billplz .pending] .pending)
      true "pay_a" 1).payments.map PaymentRecord.paid_at = [some 1] := by decide
  have h2 : (billplz_webhook_update (billplz_webhook_update
      (sampleBooking [sampleRecord "pay_a" 100 .billplz .pending] .pending)
      true "pay_a" 1) true "pay_a" 2).payments.map PaymentRecord.paid_at = [some 2] := by
    decide
  refine ⟨by decide, h1, h2, fun h => ?_⟩
  have := congrArg (fun bb => bb.payments.map PaymentRecord.paid_at) h
  simp only [h1, h2] at this
  exact absurd this (by decide)

/-- C2 amended: the pending-status no-op check exists only in the
Bayarcash webhook.  For the Billplz webhook and the admin bank-transfer
confirm, re-delivery re-marks the resolved record — overwriting its
paid_at and the booking's updated_at — but leaves the timestamp-free
ledger state (paid_amount, remaining_amount, payment_status,
booking_status and each payment's identity, amount and status) unchanged.
The Bayarcash webhook is a strict no-op exactly when no pending Bayarcash
record remains; when another pending Bayarcash record exists, a
redelivered payload completes that record instead and increases
paid_amount, as on the concrete booking with pending Bayarcash payments
of 100 and 200 where the duplicate raises paid_amount from 100 to 300. -/
theorem C2_amended_ledger_view_idempotent (b : Booking) (pid : String) (t1 t2 : Nat) :
    (ledger_view (billplz_webhook_update (billplz_webhook_update b true pid t1) true pid t2)
      = ledger_view (billplz_webhook_update b true pid t1))
    ∧ (ledger_view
        (confirm_bank_transfer_update (confirm_bank_transfer_update b pid t1) pid t2)
      = ledger_view (confirm_bank_transfer_update b pid t1))
    ∧ (∀ s tx, bayarcash_mark tx t2 b.payments = none →
        bayarcash_webhook_update b s tx t2 = b)
    ∧ (bayarcash_webhook_update
        (sampleBooking [sampleRecord "pay_d" 100 .bayarcash .pending,
          sampleRecord "pay_e" 200 .bayarcash .pending] .pending)
        "success" "tx_a" 1).paid_amount = 100
    ∧ (bayarcash_webhook_update (bayarcash_webhook_update
        (sampleBooking [sampleRecord "pay_d" 100 .bayarcash .pending,
          sampleRecord "pay_e" 200 .bayarcash .pending] .pending)
        "success" "tx_a" 1) "success" "tx_a" 2).paid_amount = 300 := by
  have hs : strLower "success" ∈ bayarcash_success_statuses := by decide
  refine ⟨?_, ?_, ?_, ?_, ?_⟩
  · simpa [billplz_webhook_update] using reconcile_ledger_view_idem b pid t1 t2
  · simpa [confirm_bank_transfer_update] using reconcile_ledger_view_idem b pid t1 t2
  · intro s tx hmark
    unfold bayarcash_webhook_update
    by_cases hc : strLower s ∈ bayarcash_success_statuses
    · simp [hc, hmark]
    · simp [hc]
  · norm_num [bayarcash_webhook_update, bayarcash_mark, sampleBooking, sampleRecord, hs]
  · simp [bayarcash_webhook_update, bayarcash_mark, sampleBooking, sampleRecord, hs]
    norm_num

/-- Witness for C2: on a booking with no Bayarcash record at all, a
redelivered (or stray) Bayarcash success callback is a strict no-op. -/
theorem C2_witness :
    bayarcash_webhook_update (sampleBooking [] .pending) "success" "tx_w" 2
      = sampleBooking [] .pending :=
  ((C2_amended_ledger_view_idempotent (sampleBooking [] .pending) "pay_w2" 1 2).2.2.1)
    "success" "tx_w" rfl

/-- C3 counterexample: a cancelled booking is not left untouched — a paid
Billplz webhook for its pending payment overwrites booking_status from
cancelled to confirmed. -/
theorem C3_counterexample_cancelled_overwritten :
    (sampleBooking [sampleRecord "pay_b" 100 .billplz .pending] .cancelled).booking_status
      = BookingStatus.cancelled
    ∧ (billplz_webhook_update
        (sampleBooking [sampleRecord "pay_b" 100 .billplz .pending] .cancelled)
        true "pay_b" 3).booking_status = BookingStatus.confirmed := by
  refine ⟨rfl, ?_⟩
  norm_num [billplz_webhook_update, reconcile_by_payment_id, recompute_totals,
    apply_mark, hasPayment, markFirstCompleted, sampleBooking, sampleRecord,
    sum_completed]

/-- C3 amended: reconciliation (Billplz webhook with a paid payload, admin
bank-transfer confirm) sets booking_status to confirmed exactly when the
recomputed paid_amount is positive and to pending otherwise, regardless of
the current status — terminal cancelled/completed states are overwritten
rather than preserved. -/
theorem C3_amended_status_derivation_unconditional (b : Booking) (pid : String)
    (now : Nat) :
    (((billplz_webhook_update b true pid now).booking_status = .confirmed
        ↔ 0 < (billplz_webhook_update b true pid now).paid_amount)
      ∧ ((billplz_webhook_update b true pid now).booking_status = .pending
        ↔ ¬ 0 < (billplz_webhook_update b true pid now).paid_amount))
    ∧ (((confirm_bank_transfer_update b pid now).booking_status = .confirmed
        ↔ 0 < (confirm_bank_transfer_update b pid now).paid_amount)
      ∧ ((confirm_bank_transfer_update b pid now).booking_status = .pending
        ↔ ¬ 0 < (confirm_bank_transfer_update b pid now).paid_amount)) := by
  constructor
  · simpa [billplz_webhook_update] using reconcile_booking_status_iff b pid now
  · simpa [confirm_bank_transfer_update] using reconcile_booking_status_iff b pid now

/-- C4 counterexample: reconciliation has no pending branch for
payment_status — an admin confirm naming a payment_id that matches no
record, on a booking with zero completed payments, recomputes the
aggregates and sets payment_status to partial although paid_amount is 0. -/
theorem C4_counterexample_partial_with_zero_paid :
    (confirm_bank_transfer_update (sampleBooking [] .pending) "pay_z" 4).paid_amount = 0
    ∧ (confirm_bank_transfer_update (sampleBooking [] .pending) "pay_z" 4).payment_status
        = PaymentStatus.partPaid := by
  constructor
  · simp [confirm_bank_transfer_update, reconcile_by_payment_id, recompute_totals,
      apply_mark, hasPayment, sampleBooking, sum_completed]
  · norm_num [confirm_bank_transfer_update, reconcile_by_payment_id, recompute_totals,
      apply_mark, hasPayment, sampleBooking, sum_completed]

/-- C4 amended: after a payment_id-keyed reconciliation (Billplz webhook
with a paid payload, admin bank-transfer confirm), payment_status is
completed iff remaining_amount is 0 (i.e. at most 0) and partial iff
remaining_amount is positive — there is no pending outcome, so a booking
with paid_amount 0 can end up partial. -/
theorem C4_amended_payment_status_two_way (b : Booking) (pid : String) (now : Nat) :
    (((billplz_webhook_update b true pid now).payment_status = .completed
        ↔ (billplz_webhook_update b true pid now).remaining_amount ≤ 0)
      ∧ ((billplz_webhook_update b true pid now).payment_status = .partPaid
        ↔ 0 < (billplz_webhook_update b true pid now).remaining_amount))
    ∧ (((confirm_bank_transfer_update b pid now).payment_status = .completed
        ↔ (confirm_bank_transfer_update b pid now).remaining_amount ≤ 0)
      ∧ ((confirm_bank_transfer_update b pid now).payment_status = .partPaid
        ↔ 0 < (confirm_bank_transfer_update b pid now).remaining_amount)) := by
  constructor
  · simpa [billplz_webhook_update] using reconcile_payment_status_iff b pid now
  · simpa [confirm_bank_transfer_update] using reconcile_payment_status_iff b pid now

/-- C7: for the three gateway methods, a transport failure of the gateway
call makes payment initiation fail with no payment record persisted, and
any successful initiation presupposes a successful gateway call and
appends exactly one pending record. -/
theorem C7_gateway_failure_persists_nothing (b : Booking) (pd : PaymentCreate)
    (pid : String) (now : Nat)
    (hm : pd.payment_method = .billplz ∨ pd.payment_method = .stripe
          ∨ pd.payment_method = .bayarcash) :
    (¬ ∃ r, create_payment b pd GatewayResult.err pid now = Except.ok r)
    ∧ ∀ gw b' resp, create_payment b pd gw pid now = Except.ok (b', resp) →
        gw ≠ GatewayResult.err
        ∧ ∃ p, b'.payments = b.payments ++ [p] ∧ p.status = PaymentStatus.pending := by
  obtain ⟨pbk, pamt, pm⟩ := pd
  simp only at hm
  constructor
  · rintro ⟨r, hr⟩
    unfold create_payment at hr
    by_cases hc : b.payment_status = .completed
    · rw [if_pos hc] at hr
      exact Except.noConfusion hr
    · rw [if_neg hc] at hr
      by_cases hrem : b.total_amount - b.paid_amount
          < (PaymentCreate.mk pbk pamt pm).amount
      · rw [if_pos hrem] at hr
        exact Except.noConfusion hr
      · rw [if_neg hrem] at hr
        by_cases hmin : (PaymentCreate.mk pbk pamt pm).amount < 2
        · rw [if_pos hmin] at hr
          exact Except.noConfusion hr
        · rw [if_neg hmin] at hr
          rcases hm with h | h | h <;> subst h <;> exact Except.noConfusion hr
  · rintro gw b' resp hr
    unfold create_payment at hr
    by_cases hc : b.payment_status = .completed
    · rw [if_pos hc] at hr
      exact Except.noConfusion hr
    · rw [if_neg hc] at hr
      by_cases hrem : b.total_amount - b.paid_amount
          < (PaymentCreate.mk pbk pamt pm).amount
      · rw [if_pos hrem] at hr
        exact Except.noConfusion hr
      · rw [if_neg hrem] at hr
        by_cases hmin : (PaymentCreate.mk pbk pamt pm).amount < 2
        · rw [if_pos hmin] at hr
          exact Except.noConfusion hr
        · rw [if_neg hmin] at hr
          cases gw with
          | err =>
              rcases hm with h | h | h <;> subst h <;> exact Except.noConfusion hr
          | ok bill url =>
              refine ⟨by simp, ?_⟩
              rcases hm with h | h | h <;> subst h <;>
                · simp only [Except.ok.injEq, Prod.mk.injEq] at hr
                  obtain ⟨hb', -⟩ := hr
                  exact ⟨_, by rw [← hb'], rfl⟩

/-- Witness for C7: a transport failure on a Billplz initiation for the
sample booking yields no success result. -/
theorem C7_witness :
    ¬ ∃ r, create_payment (sampleBooking [] .pending)
        ⟨"BK-000001", 100, PaymentMethod.billplz⟩ GatewayResult.err "pay_w7" 0
          = Except.ok r :=
  (C7_gateway_failure_persists_nothing (sampleBooking [] .pending)
      ⟨"BK-000001", 100, PaymentMethod.billplz⟩ "pay_w7" 0 (Or.inl rfl)).1

/-- C5: for every valid payment amount, the charge calculator returns
processing_fee 1.50 for billplz, round(amount * 0.04, 2) for stripe, 0 for
bayarcash and bank_transfer, and charge_amount = round(amount +
processing_fee, 2); in particular charge(100, billplz) = (1.50, 101.50),
charge(100, stripe) = (4.00, 104.00), charge(100, bayarcash) = (0, 100.00). -/
theorem C5_charge_calculator (a : ℚ) (_valid : 2 ≤ a) :
    processing_fee a .billplz = 3/2
    ∧ processing_fee a .stripe = round2 (a * (4/100))
    ∧ processing_fee a .bayarcash = 0
    ∧ processing_fee a .bank_transfer = 0
    ∧ (∀ m, charge_amount a m = round2 (a + processing_fee a m))
    ∧ processing_fee 100 .billplz = 3/2 ∧ charge_amount 100 .billplz = 203/2
    ∧ processing_fee 100 .stripe = 4 ∧ charge_amount 100 .stripe = 104
    ∧ processing_fee 100 .bayarcash = 0 ∧ charge_amount 100 .bayarcash = 100 := by
  refine ⟨rfl, rfl, rfl, rfl, fun m => rfl, rfl, ?_, ?_, ?_, rfl, ?_⟩
  · norm_num [charge_amount, processing_fee, round2, BILLPLZ_FEE]
  · norm_num [processing_fee, round2, STRIPE_FEE_PERCENT]
  · norm_num [charge_amount, processing_fee, round2, STRIPE_FEE_PERCENT]
  · norm_num [charge_amount, processing_fee, round2]

/-- Witness for C5 at the concrete amount 100. -/
theorem C5_witness : processing_fee 100 PaymentMethod.billplz = 3/2 :=
  (C5_charge_calculator 100 (by norm_num)).1

/-- C6: payment creation rejects (and so appends no payment record and
leaves the booking unchanged — an error result carries no mutated
booking) every request whose amount is below 2.00 or above the booking's
current remaining amount, for every payment method and gateway outcome. -/
theorem C6_payment_validation_rejects (b : Booking) (pd : PaymentCreate)
    (gw : GatewayResult) (pid : String) (now : Nat)
    (h : pd.amount < 2 ∨ b.total_amount - b.paid_amount < pd.amount) :
    ¬ ∃ r, create_payment b pd gw pid now = Except.ok r := by
  rintro ⟨r, hr⟩
  unfold create_payment at hr
  by_cases hc : b.payment_status = .completed
  · rw [if_pos hc] at hr
    exact Except.noConfusion hr
  · rw [if_neg hc] at hr
    by_cases hrem : b.total_amount - b.paid_amount < pd.amount
    · rw [if_pos hrem] at hr
      exact Except.noConfusion hr
    · rw [if_neg hrem] at hr
      have hmin : pd.amount < 2 := by
        rcases h with h | h
        · exact h
        · exact absurd h hrem
      rw [if_pos hmin] at hr
      exact Except.noConfusion hr

/-- Witness for C6: amount 1.00 on the sample booking is rejected. -/
theorem C6_witness :
    ¬ ∃ r, create_payment (sampleBooking [] .pending)
        ⟨"BK-000001", 1, PaymentMethod.billplz⟩ (.ok "b1" "u1") "pay_w6" 0
          = Except.ok r :=
  C6_payment_validation_rejects _ _ _ _ _ (Or.inl (show (1 : ℚ) < 2 by norm_num))

/-- C8: cancelling a booking already cancelled or completed fails (no
state is produced), while cancelling a pending or confirmed booking sets
booking_status to cancelled and changes nothing else but updated_at. -/
theorem C8_cancel_booking (b : Booking) (now : Nat) :
    ((b.booking_status = .cancelled ∨ b.booking_status = .completed) →
        ¬ ∃ b', cancel_booking b now = Except.ok b')
    ∧ ((b.booking_status = .pending ∨ b.booking_status = .confirmed) →
        cancel_booking b now
          = Except.ok { b with booking_status := .cancelled, updated_at := now }) := by
  constructor
  · intro h
    rintro ⟨b', hb⟩
    unfold cancel_booking at hb
    rw [if_pos h] at hb
    exact Except.noConfusion hb
  · intro h
    have hne : ¬ (b.booking_status = .cancelled ∨ b.booking_status = .completed) := by
      rcases h with h | h <;> simp [h]
    unfold cancel_booking
    rw [if_neg hne]

/-- Witness for C8: a completed sample booking is rejected, a pending one
is cancelled. -/
theorem C8_witness :
    (¬ ∃ b', cancel_booking (sampleBooking [] .completed) 7 = Except.ok b')
    ∧ cancel_booking (sampleBooking [] .pending) 7
        = Except.ok { sampleBooking [] .pending with
            booking_status := .cancelled, updated_at := 7 } :=
  ⟨(C8_cancel_booking (sampleBooking [] .completed) 7).1 (Or.inr rfl),
   (C8_cancel_booking (sampleBooking [] .pending) 7).2 (Or.inl rfl)⟩

/-- C9: a successful booking creation returns total_amount = price *
guests, deposit_amount = deposit_price * guests, paid_amount 0,
remaining_amount = total_amount, an empty payments list, and both
statuses pending. -/
theorem C9_create_booking_initial_state (trip : Trip) (d : BookingCreate)
    (uid bid : String) (now : Nat)
    (h1 : d.guests ≤ trip.max_guests)
    (h2 : d.participant_details.length = d.guests) :
    ∃ bk, create_booking trip d uid bid now = Except.ok bk
      ∧ bk.total_amount = trip.price * (d.guests : ℚ)
      ∧ bk.deposit_amount = trip.deposit_price * (d.guests : ℚ)
      ∧ bk.paid_amount = 0
      ∧ bk.remaining_amount = bk.total_amount
      ∧ bk.payments = []
      ∧ bk.payment_status = .pending
      ∧ bk.booking_status = .pending := by
  unfold create_booking
  rw [if_neg (Nat.not_lt.mpr h1), if_neg (by simp [h2])]
  exact ⟨_, rfl, rfl, rfl, rfl, rfl, rfl, rfl, rfl⟩

/-- Witness for C9 on the spec's end-to-end scenario (899 per guest,
deposit 50 per guest, 2 guests, deposit payment type). -/
theorem C9_witness :
    ∃ bk, create_booking sampleTrip sampleCreate "u_1" "BK-000001" 0 = Except.ok bk
      ∧ bk.total_amount = sampleTrip.price * (sampleCreate.guests : ℚ)
      ∧ bk.deposit_amount = sampleTrip.deposit_price * (sampleCreate.guests : ℚ)
      ∧ bk.paid_amount = 0
      ∧ bk.remaining_amount = bk.total_amount
      ∧ bk.payments = []
      ∧ bk.payment_status = .pending
      ∧ bk.booking_status = .pending :=
  C9_create_booking_initial_state sampleTrip sampleCreate "u_1" "BK-000001" 0
    (by decide) (by decide)

/-- C10 counterexample: with a configured secret, a present-but-empty
X-Signature header and a digest that differs from it, the claim's iff
demands rejection (secret configured, header present, HMAC differs), but
the handler's `if signature_header:` truthiness test treats the empty
header as absent and processes the payload unverified. -/
theorem C10_counterexample_empty_header :
    ("secret_key" : String) ≠ ""
    ∧ (∃ h, (some "" : Option String) = some h ∧ ("deadbeef" : String) ≠ h)
    ∧ billplz_signature_rejects "secret_key" (some "") "deadbeef" = false := by
  refine ⟨by decide, ⟨"", rfl, by decide⟩, by decide⟩

/-- C10 amended: the Billplz webhook rejects with a signature error iff a
signing secret is configured and a non-empty X-Signature header is
present and the HMAC-SHA256 of the raw body differs from it; with a
configured secret, both an absent header and a present-but-empty header
skip verification entirely and the payload is processed as if verified. -/
theorem C10_amended_signature_gate (key : String) (hdr : Option String)
    (mac : String) :
    (billplz_signature_rejects key hdr mac = true
       ↔ key ≠ "" ∧ ∃ h, hdr = some h ∧ h ≠ "" ∧ mac ≠ h)
    ∧ (key ≠ "" → billplz_signature_rejects key none mac = false)
    ∧ (key ≠ "" → billplz_signature_rejects key (some "") mac = false) := by
  refine ⟨?_, ?_, ?_⟩
  · unfold billplz_signature_rejects
    by_cases hk : key = ""
    · simp [hk]
    · cases hdr with
      | none => simp [hk]
      | some h =>
          by_cases hh : h = ""
          · simp [hk, hh]
          · simp [hk, hh]
  · intro hk
    simp [billplz_signature_rejects, hk]
  · intro hk
    simp [billplz_signature_rejects, hk]

/-- Witness for C10: secret configured, header absent, request processed. -/
theorem C10_witness :
    billplz_signature_rejects "secret_key" none "deadbeef" = false :=
  (C10_amended_signature_gate "secret_key" none "deadbeef").2.1 (by decide)

end Seeker
